import Mathlib

/-!
Shallow embedding of the zed-f9r-parser NMEA pipeline
(`nmea_decoder.py`, `ucm_calc.py`, `i2c_parser.py`).

Strings are modelled as `List Char`, Python floats as exact rationals `ℚ`,
Python ints as `ℤ`.  The transcendental functions used by the UTM projection
(`math.sin`, `math.cos`, `math.tan`, `math.sqrt`) are abstracted as an oracle
(`Trig`); every theorem about the coordinate converter holds for an arbitrary
oracle, so in particular for the real functions.
-/

namespace ZedF9r

abbrev Str := List Char

/-- Python `str.isdigit`-style test for one ASCII digit. -/
def isDigitC (c : Char) : Bool := c.isDigit

/-- Numeric value of an ASCII digit character. -/
def digVal (c : Char) : ℕ := c.toNat - 48

/-- Hex digit test, matching the regex class `[0-9A-Fa-f]`. -/
def isHexD (c : Char) : Bool :=
  c.isDigit || ('a' ≤ c && c ≤ 'f') || ('A' ≤ c && c ≤ 'F')

/-- Numeric value of a hex digit character. -/
def hexDigVal (c : Char) : ℕ :=
  if c.isDigit then c.toNat - 48
  else if 'a' ≤ c then c.toNat - 87
  else c.toNat - 55

/-- Python `\s` whitespace class (ASCII part). -/
def isSpaceC (c : Char) : Bool :=
  c = ' ' || c = '\t' || c = '\n' || c = '\r' || c = '\x0b' || c = '\x0c'

/-- Python `str.strip()`. -/
def pyStrip (s : Str) : Str :=
  ((s.dropWhile isSpaceC).reverse.dropWhile isSpaceC).reverse

/-- Python `str.split(sep)` for a one-character separator. -/
def splitOnC (sep : Char) : Str → List Str
  | [] => [[]]
  | c :: cs =>
    match splitOnC sep cs with
    | [] => [[]]
    | h :: t => if c = sep then [] :: h :: t else (c :: h) :: t

/-- Python `str.upper()` on ASCII text. -/
def pyUpper (s : Str) : Str := s.map Char.toUpper

/-- Value of a digit string, most significant first. -/
def digitsVal (s : Str) : ℕ := s.foldl (fun a c => 10 * a + digVal c) 0

/-- Value of a two-character hex string, as in Python `int(cs, 16)`. -/
def hexStrVal (s : Str) : ℕ := s.foldl (fun a c => 16 * a + hexDigVal c) 0

/-- Unsigned decimal integer literal, as accepted by Python `int()`
(sign handled by the caller). -/
def parseUnsignedInt (s : Str) : Option ℤ :=
  if s ≠ [] ∧ s.all isDigitC then some (digitsVal s) else none

/-- Python `int(s)` on plain (non-padded) decimal strings. -/
def pyInt (s : Str) : Option ℤ :=
  match s with
  | [] => parseUnsignedInt []
  | c :: rest =>
    if c = '+' then parseUnsignedInt rest
    else if c = '-' then (parseUnsignedInt rest).map (fun n => -n)
    else parseUnsignedInt (c :: rest)

/-- Unsigned decimal float literal `digits [. digits]` or `. digits`,
as accepted by Python `float()` on the plain forms used by the protocol. -/
def parseUnsignedFloat (s : Str) : Option ℚ :=
  let ip := s.takeWhile isDigitC
  let rest := s.dropWhile isDigitC
  match rest with
  | [] => if ip = [] then none else some (digitsVal ip)
  | '.' :: fp =>
      if fp.all isDigitC ∧ (ip ≠ [] ∨ fp ≠ []) then
        some ((digitsVal ip : ℚ) + (digitsVal fp : ℚ) / (10 : ℚ) ^ fp.length)
      else none
  | _ => none

/-- Python `float(s)` on plain decimal strings. -/
def pyFloat (s : Str) : Option ℚ :=
  match s with
  | [] => parseUnsignedFloat []
  | c :: rest =>
    if c = '+' then parseUnsignedFloat rest
    else if c = '-' then (parseUnsignedFloat rest).map (fun q => -q)
    else parseUnsignedFloat (c :: rest)

/-- Model of `to_int` from `nmea_decoder.py`: `int(x) if x != "" else None`,
exceptions mapped to `None`. -/
def to_int (s : Str) : Option ℤ := if s = [] then none else pyInt s

/-- Model of `to_float` from `nmea_decoder.py`. -/
def to_float (s : Str) : Option ℚ := if s = [] then none else pyFloat s

/-- Model of `nmea_checksum_xor`: XOR of all bytes between the marker and the
checksum separator. -/
def nmea_checksum_xor (body : Str) : ℕ :=
  body.foldl (fun cs c => Nat.xor cs c.toNat) 0

/-- Model of `parse_lat_lon` from `nmea_decoder.py`: `ddmm.mmmm` / `dddmm.mmmm`
plus hemisphere letter, to decimal degrees; any failure yields `none`. -/
def parse_lat_lon (nmea_value : Str) (hemi : Str) : Option ℚ :=
  if nmea_value = [] ∨ hemi = [] then none
  else if ¬ nmea_value.contains '.' then none
  else
    let deg_digits : ℕ :=
      if pyUpper hemi = ['N'] ∨ pyUpper hemi = ['S'] then 2 else 3
    match pyInt (nmea_value.take deg_digits),
          pyFloat (nmea_value.drop deg_digits) with
    | some deg, some minutes =>
        let dec : ℚ := (deg : ℚ) + minutes / 60
        some (if pyUpper hemi = ['S'] ∨ pyUpper hemi = ['W'] then -dec else dec)
    | _, _ => none

/-! ## Sentence records (the `NMEAMessage` dataclass family) -/

/-- Fields shared by all sentence records (`NMEAMessage` base dataclass). -/
structure MsgBase where
  talker : Str
  msg_type : Str
  raw : Str
  fields : List Str
  checksum_ok : Option Bool
deriving DecidableEq

/-- Kind-specific fields of `NMEAGGA`. -/
structure GGAData where
  utc_time : Option Str
  lat_deg : Option ℚ
  lon_deg : Option ℚ
  fix_quality : Option ℤ
  num_sats : Option ℤ
  hdop : Option ℚ
  altitude_m : Option ℚ
  geoid_sep_m : Option ℚ
deriving DecidableEq

/-- Kind-specific fields of `NMEAGSA`. -/
structure GSAData where
  mode1 : Option Str
  mode2 : Option ℤ
  sat_prns : List ℤ
  pdop : Option ℚ
  hdop : Option ℚ
  vdop : Option ℚ
deriving DecidableEq

/-- Kind-specific fields of `NMEARMC`. -/
structure RMCData where
  utc_time : Option Str
  status : Option Str
  lat_deg : Option ℚ
  lon_deg : Option ℚ
  sog_knots : Option ℚ
  cog_deg : Option ℚ
  date_ddmmyy : Option Str
deriving DecidableEq

/-- Kind-specific fields of `NMEAVTG`. -/
structure VTGData where
  true_track_deg : Option ℚ
  mag_track_deg : Option ℚ
  sog_knots : Option ℚ
  sog_kmh : Option ℚ
deriving DecidableEq

/-- Kind-specific fields of `NMEAGLL`. -/
structure GLLData where
  lat_deg : Option ℚ
  lon_deg : Option ℚ
  utc_time : Option Str
  status : Option Str
deriving DecidableEq

/-- Kind-specific fields of `NMEATXT`. -/
structure TXTData where
  total : Option ℤ
  number : Option ℤ
  text_id : Option ℤ
  text : Option Str
deriving DecidableEq

/-- The tagged variant over sentence kinds (the dataclass hierarchy rooted at
`NMEAMessage`; `generic` is `NMEAGeneric`, the fallback for unknown kinds). -/
inductive NMEAMessage where
  | gga (base : MsgBase) (d : GGAData)
  | gsa (base : MsgBase) (d : GSAData)
  | rmc (base : MsgBase) (d : RMCData)
  | vtg (base : MsgBase) (d : VTGData)
  | gll (base : MsgBase) (d : GLLData)
  | txt (base : MsgBase) (d : TXTData)
  | generic (base : MsgBase)
deriving DecidableEq

/-- Base-field projection of a record. -/
def NMEAMessage.base : NMEAMessage → MsgBase
  | .gga b _ => b
  | .gsa b _ => b
  | .rmc b _ => b
  | .vtg b _ => b
  | .gll b _ => b
  | .txt b _ => b
  | .generic b => b

/-- Model of `msg.msg_type` (the storage key used by `EpochFrame.add`). -/
def NMEAMessage.msg_type (m : NMEAMessage) : Str := m.base.msg_type

/-! ## The sentence grammar (`_NMEA_RE`) and the per-kind field parsers -/

/--
Matcher for the sentence regex
`^\$(?P<body>[^*]+)(?:\*(?P<cs>[0-9A-Fa-f]{2}))?\s*$`:
returns the body and, when present, the two checksum hex characters.
-/
def nmeaMatch (line : Str) : Option (Str × Option Str) :=
  match line with
  | '$' :: rest =>
    let body := rest.takeWhile (· ≠ '*')
    if body = [] then none
    else
      match rest.dropWhile (· ≠ '*') with
      | [] => some (body, none)
      | _ :: t =>
        match t with
        | h1 :: h2 :: ws =>
          if isHexD h1 ∧ isHexD h2 ∧ ws.all isSpaceC then some (body, some [h1, h2])
          else none
        | _ => none
  | _ => none

/-- Model of `(fields + [""] * n)[:n]`: pad the field list with empty strings. -/
def padFields (fields : List Str) (n : ℕ) : List Str :=
  (fields ++ List.replicate n []).take n

/-- Python `s or None` on a string field. -/
def orNoneStr (s : Str) : Option Str := if s = [] then none else some s

/-- Model of `NMEADecoder._parse_gga`. -/
def parse_gga (talker msg_type raw : Str) (fields : List Str)
    (checksum_ok : Option Bool) : NMEAMessage :=
  let f := padFields fields 14
  .gga ⟨talker, msg_type, raw, fields, checksum_ok⟩
    { utc_time := orNoneStr (f.getD 0 [])
      lat_deg := parse_lat_lon (f.getD 1 []) (f.getD 2 [])
      lon_deg := parse_lat_lon (f.getD 3 []) (f.getD 4 [])
      fix_quality := to_int (f.getD 5 [])
      num_sats := to_int (f.getD 6 [])
      hdop := to_float (f.getD 7 [])
      altitude_m := to_float (f.getD 8 [])
      geoid_sep_m := to_float (f.getD 10 []) }

/-- Model of `NMEADecoder._parse_gsa`. -/
def parse_gsa (talker msg_type raw : Str) (fields : List Str)
    (checksum_ok : Option Bool) : NMEAMessage :=
  let f := padFields fields 17
  .gsa ⟨talker, msg_type, raw, fields, checksum_ok⟩
    { mode1 := orNoneStr (f.getD 0 [])
      mode2 := to_int (f.getD 1 [])
      sat_prns := ((f.drop 2).take 12).filterMap to_int
      pdop := to_float (f.getD 14 [])
      hdop := to_float (f.getD 15 [])
      vdop := to_float (f.getD 16 []) }

/-- Model of `NMEADecoder._parse_rmc`. -/
def parse_rmc (talker msg_type raw : Str) (fields : List Str)
    (checksum_ok : Option Bool) : NMEAMessage :=
  let f := padFields fields 12
  .rmc ⟨talker, msg_type, raw, fields, checksum_ok⟩
    { utc_time := orNoneStr (f.getD 0 [])
      status := orNoneStr (f.getD 1 [])
      lat_deg := parse_lat_lon (f.getD 2 []) (f.getD 3 [])
      lon_deg := parse_lat_lon (f.getD 4 []) (f.getD 5 [])
      sog_knots := to_float (f.getD 6 [])
      cog_deg := to_float (f.getD 7 [])
      date_ddmmyy := orNoneStr (f.getD 8 []) }

/-- Model of `NMEADecoder._parse_vtg`. -/
def parse_vtg (talker msg_type raw : Str) (fields : List Str)
    (checksum_ok : Option Bool) : NMEAMessage :=
  let f := padFields fields 9
  .vtg ⟨talker, msg_type, raw, fields, checksum_ok⟩
    { true_track_deg := to_float (f.getD 0 [])
      mag_track_deg := to_float (f.getD 2 [])
      sog_knots := to_float (f.getD 4 [])
      sog_kmh := to_float (f.getD 6 []) }

/-- Model of `NMEADecoder._parse_gll`. -/
def parse_gll (talker msg_type raw : Str) (fields : List Str)
    (checksum_ok : Option Bool) : NMEAMessage :=
  let f := padFields fields 7
  .gll ⟨talker, msg_type, raw, fields, checksum_ok⟩
    { lat_deg := parse_lat_lon (f.getD 0 []) (f.getD 1 [])
      lon_deg := parse_lat_lon (f.getD 2 []) (f.getD 3 [])
      utc_time := orNoneStr (f.getD 4 [])
      status := orNoneStr (f.getD 5 []) }

/-- Model of `NMEADecoder._parse_txt`. -/
def parse_txt (talker msg_type raw : Str) (fields : List Str)
    (checksum_ok : Option Bool) : NMEAMessage :=
  let f := padFields fields 4
  .txt ⟨talker, msg_type, raw, fields, checksum_ok⟩
    { total := to_int (f.getD 0 [])
      number := to_int (f.getD 1 [])
      text_id := to_int (f.getD 2 [])
      text := orNoneStr (f.getD 3 []) }

/-- The default parser registry dispatch (`self._parsers`); the alias table
is empty in this system, so `parse_type = msg_type`. Unknown kinds fall back
to a `Generic` record. -/
def dispatchParse (parse_type talker msg_type raw : Str) (fields : List Str)
    (checksum_ok : Option Bool) : NMEAMessage :=
  if parse_type = "GGA".data then parse_gga talker msg_type raw fields checksum_ok
  else if parse_type = "GSA".data then parse_gsa talker msg_type raw fields checksum_ok
  else if parse_type = "RMC".data then parse_rmc talker msg_type raw fields checksum_ok
  else if parse_type = "VTG".data then parse_vtg talker msg_type raw fields checksum_ok
  else if parse_type = "GLL".data then parse_gll talker msg_type raw fields checksum_ok
  else if parse_type = "TXT".data then parse_txt talker msg_type raw fields checksum_ok
  else .generic ⟨talker, msg_type, raw, fields, checksum_ok⟩

/-- Model of `NMEADecoder._parse_line` (for a decoder with the default registry and
no aliases): grammar match, optional checksum verification, header split,
typed dispatch. -/
def _parse_line (verify_checksum : Bool) (line : Str) : Option NMEAMessage :=
  match nmeaMatch line with
  | none => none
  | some (body, cs_hex) =>
    let checksum_ok : Option Bool :=
      match cs_hex, verify_checksum with
      | some cs, true => some (hexStrVal cs = nmea_checksum_xor body)
      | _, _ => none
    if checksum_ok = some false then none
    else
      match splitOnC ',' body with
      | [] => none
      | header :: fields =>
        if header.length < 5 then none
        else
          some (dispatchParse (header.drop 2) (header.take 2) (header.drop 2)
            line fields checksum_ok)

/-! ## Epoch frames and the decoder state machine -/

/-- Model of `EpochFrame`: epoch id, receipt timestamp, and the insertion-ordered
mapping `messages_by_type` (a Python dict keyed by `msg_type`, modelled as an
insertion-ordered association list). -/
structure EpochFrame where
  epoch_id : ℤ
  t_recv_s : ℚ
  messages_by_type : List (Str × List NMEAMessage)
deriving DecidableEq

/-- Model of `dict.setdefault(key, []).append(msg)`: append to the key's list,
inserting the key at the end on first use. -/
def addToAssoc : List (Str × List NMEAMessage) → Str → NMEAMessage →
    List (Str × List NMEAMessage)
  | [], k, m => [(k, [m])]
  | (k', ms) :: rest, k, m =>
    if k' = k then (k', ms ++ [m]) :: rest else (k', ms) :: addToAssoc rest k m

/-- Model of `EpochFrame.add`. -/
def EpochFrame.add (f : EpochFrame) (m : NMEAMessage) : EpochFrame :=
  { f with messages_by_type := addToAssoc f.messages_by_type m.msg_type m }

/-- Model of `EpochFrame.get`: `messages_by_type.get(msg_type, [])`. -/
def EpochFrame.get (f : EpochFrame) (k : Str) : List NMEAMessage :=
  match f.messages_by_type.lookup k with
  | some ms => ms
  | none => []

/-- Is a record an `NMEAGGA` instance? -/
def NMEAMessage.isGGA : NMEAMessage → Bool
  | .gga _ _ => true
  | _ => false

/-- The `EpochFrame.GGA` property: records stored under key `"GGA"` that are
`NMEAGGA` instances. -/
def EpochFrame.GGA (f : EpochFrame) : List NMEAMessage :=
  (f.get "GGA".data).filter NMEAMessage.isGGA

/-- Model of `NMEADecoder` state: the verification flag, the auto-increment epoch
counter, and the currently open frame. -/
structure NMEADecoder where
  verify_checksum : Bool
  _epoch_counter : ℤ
  _current : Option EpochFrame
deriving DecidableEq

/-- Model of `NMEADecoder.begin_epoch(epoch_id=None, t_recv_s=None)`; the receipt
time (`time.time()` when absent) is passed in explicitly. -/
def NMEADecoder.begin_epoch (s : NMEADecoder) (epoch_id : Option ℤ)
    (t_recv_s : ℚ) : NMEADecoder :=
  match epoch_id with
  | none =>
    { s with _epoch_counter := s._epoch_counter + 1,
             _current := some ⟨s._epoch_counter + 1, t_recv_s, []⟩ }
  | some i => { s with _current := some ⟨i, t_recv_s, []⟩ }

/-- Model of `NMEADecoder.end_epoch`: detach and return the current frame. -/
def NMEADecoder.end_epoch (s : NMEADecoder) : NMEADecoder × Option EpochFrame :=
  ({ s with _current := none }, s._current)

/-- Model of `NMEADecoder.feed_line` (with `epoch_id=None`): strip, require the `$`
marker, parse, auto-open an epoch if none is active, store the record. -/
def NMEADecoder.feed_line (s : NMEADecoder) (line : Str) (t : ℚ) :
    NMEADecoder × Option NMEAMessage :=
  let stripped := pyStrip line
  if stripped = [] ∨ stripped.head? ≠ some '$' then (s, none)
  else
    match _parse_line s.verify_checksum stripped with
    | none => (s, none)
    | some msg =>
      let s1 := if s._current = none then s.begin_epoch none t else s
      match s1._current with
      | some f => ({ s1 with _current := some (f.add msg) }, some msg)
      | none => (s1, some msg)

/-! ## Coordinate converter (`ucm_calc.py`)

The transcendental functions `math.sin`, `math.cos`, `math.tan`, `math.sqrt`
are abstracted as an oracle `Trig`; all converter theorems are proved for an
arbitrary oracle and hence hold for the actual real-valued functions. -/

/-- Oracle for the transcendental functions used by `latlon_to_utm`. -/
structure Trig where
  sin : ℚ → ℚ
  cos : ℚ → ℚ
  tan : ℚ → ℚ
  sqrt : ℚ → ℚ

/-- WGS84 semi-major axis (m). -/
def WGS84_A : ℚ := 6378137

/-- WGS84 flattening. -/
def WGS84_F : ℚ := 1 / (298257223563 / 1000000000)

/-- WGS84 first eccentricity squared. -/
def WGS84_E2 : ℚ := WGS84_F * (2 - WGS84_F)

/-- UTM scale factor. -/
def K0 : ℚ := 9996 / 10000

/-- Model of `_deg2rad`, with the float literal `3.141592653589793` kept exactly. -/
def _deg2rad (deg : ℚ) : ℚ := deg * (3141592653589793 / 1000000000000000) / 180

/-- Model of `utm_zone_from_lon`: `int((lon + 180.0) // 6.0) + 1` with the
`lon == 180.0` clamp. -/
def utm_zone_from_lon (lon_deg : ℚ) : ℤ :=
  let lon : ℚ := if lon_deg = 180 then 179999999 / 1000000 else lon_deg
  Int.floor ((lon + 180) / 6) + 1

/-- Model of `UTMCoord`. -/
structure UTMCoord where
  easting_m : ℚ
  northing_m : ℚ
  zone : ℤ
  hemisphere : Str
deriving DecidableEq

/-- Model of `latlon_to_utm`: transverse-Mercator projection, zone either supplied or
derived from longitude. `TT` stands for the Python local `T`. -/
def latlon_to_utm (trig : Trig) (lat_deg lon_deg : ℚ) (zone_arg : Option ℤ) :
    UTMCoord :=
  let zone : ℤ := match zone_arg with
    | none => utm_zone_from_lon lon_deg
    | some z => z
  let hemisphere : Str := if lat_deg ≥ 0 then ['N'] else ['S']
  let lat := _deg2rad lat_deg
  let lon := _deg2rad lon_deg
  let lon0_deg : ℚ := ((zone - 1) * 6 - 180 + 3 : ℤ)
  let lon0 := _deg2rad lon0_deg
  let e2 := WGS84_E2
  let ep2 := e2 / (1 - e2)
  let sin_lat := trig.sin lat
  let cos_lat := trig.cos lat
  let tan_lat := trig.tan lat
  let N := WGS84_A / trig.sqrt (1 - e2 * sin_lat * sin_lat)
  let TT := tan_lat * tan_lat
  let C := ep2 * cos_lat * cos_lat
  let A := cos_lat * (lon - lon0)
  let M := WGS84_A * (
    (1 - e2 / 4 - 3 * e2 * e2 / 64 - 5 * e2 ^ 3 / 256) * lat
    - (3 * e2 / 8 + 3 * e2 * e2 / 32 + 45 * e2 ^ 3 / 1024) * trig.sin (2 * lat)
    + (15 * e2 * e2 / 256 + 45 * e2 ^ 3 / 1024) * trig.sin (4 * lat)
    - (35 * e2 ^ 3 / 3072) * trig.sin (6 * lat))
  let easting := K0 * N * (
    A + (1 - TT + C) * A ^ 3 / 6
    + (5 - 18 * TT + TT ^ 2 + 72 * C - 58 * ep2) * A ^ 5 / 120) + 500000
  let northing := K0 * (
    M + N * tan_lat * (
      A ^ 2 / 2
      + (5 - TT + 9 * C + 4 * C ^ 2) * A ^ 4 / 24
      + (61 - 58 * TT + TT ^ 2 + 600 * C - 330 * ep2) * A ^ 6 / 720))
  let northing := if hemisphere = ['S'] then northing + 10000000 else northing
  ⟨easting, northing, zone, hemisphere⟩

/-- Model of `UCMConverter` state. -/
structure UCMConverter where
  fixed_zone : Option ℤ
  _origin_utm : Option UTMCoord
deriving DecidableEq

/-- Model of `UCMConverter.set_origin_from_latlon`. -/
def UCMConverter.set_origin_from_latlon (c : UCMConverter) (trig : Trig)
    (lat_deg lon_deg : ℚ) : UCMConverter :=
  { c with _origin_utm := some (latlon_to_utm trig lat_deg lon_deg c.fixed_zone) }

/-- Model of `UCMConverter.to_local_xy`: raises `RuntimeError` when no origin is set,
otherwise projects the current point in the origin's zone and subtracts. -/
def UCMConverter.to_local_xy (c : UCMConverter) (trig : Trig)
    (lat_deg lon_deg : ℚ) : Except String (ℚ × ℚ) :=
  match c._origin_utm with
  | none => .error "Origin not set. Call set_origin_from_latlon() first."
  | some o =>
    let cur := latlon_to_utm trig lat_deg lon_deg (some o.zone)
    .ok (cur.easting_m - o.easting_m, cur.northing_m - o.northing_m)

/-- Model of `extract_latlon_from_nmea_message`: `getattr`-based access to
`lat_deg`/`lon_deg`, present on GGA, RMC and GLL records only. -/
def extract_latlon_from_nmea_message : NMEAMessage → Option (ℚ × ℚ)
  | .gga _ d =>
    match d.lat_deg, d.lon_deg with
    | some a, some b => some (a, b)
    | _, _ => none
  | .rmc _ d =>
    match d.lat_deg, d.lon_deg with
    | some a, some b => some (a, b)
    | _, _ => none
  | .gll _ d =>
    match d.lat_deg, d.lon_deg with
    | some a, some b => some (a, b)
    | _, _ => none
  | _ => none

/-! ## The I2C parser (`i2c_parser.py`), abstracted over the byte transport

Only the per-line processing of `I2CGNSSParser.poll` is modelled: the bytes
read from the bus are already assembled into terminated lines.  Python
exceptions escaping `poll` are modelled by `Except PyExc`. -/

/-- Python exceptions that the modelled code paths can raise. -/
inductive PyExc where
  | runtimeError (msg : String)
  | attributeError
  | typeError
deriving DecidableEq

/-- Model of `UCMResult`. -/
structure UCMResult where
  epoch_id : ℤ
  t_recv_s : ℚ
  x_m : ℚ
  y_m : ℚ
  lat_deg : Option ℚ
  lon_deg : Option ℚ
deriving DecidableEq

/-- Model of `I2CGNSSParser` state (the fields relevant to line processing). -/
structure I2CState where
  decoder : NMEADecoder
  ucm : UCMConverter
  _origin_set : Bool
  _pending_ucm : List UCMResult
deriving DecidableEq

/-- Model of `I2CGNSSParser.__init__` with its defaults: the decoder is created with
`verify_checksum=False` and an initial epoch is opened with explicit id 1
(leaving the auto-increment counter at 0); the converter uses
`fixed_zone=52` and no origin. -/
def initI2C (t0 : ℚ) : I2CState :=
  { decoder := NMEADecoder.begin_epoch ⟨false, 0, none⟩ (some 1) t0
    ucm := ⟨some 52, none⟩
    _origin_set := false
    _pending_ucm := [] }

/-- Model of `I2CGNSSParser.is_gga_sentence`: strip, check the `$` marker, take the
header (before the first `*` and the first `,`), and test characters 2–4
against `GGA`. -/
def is_gga_sentence (line : Str) : Bool :=
  match pyStrip line with
  | [] => false
  | c :: rest =>
    if c = '$' then
      let body := rest.takeWhile (· ≠ '*')
      let head := body.takeWhile (· ≠ ',')
      decide (5 ≤ head.length) && decide ((head.drop 2).take 3 = "GGA".data)
    else false

/-- Model of `I2CGNSSParser._frame_to_ucm`: representative fix `GGA[0]`, one-shot
origin latching guarded by `_origin_set`, then local-XY conversion.
A `RuntimeError` from `to_local_xy` propagates. -/
def _frame_to_ucm (trig : Trig) (s : I2CState) (frame : EpochFrame) :
    Except PyExc (Option UCMResult × I2CState) :=
  match frame.GGA with
  | [] => .ok (none, s)
  | gga :: _ =>
    match extract_latlon_from_nmea_message gga with
    | none => .ok (none, s)
    | some (lat, lon) =>
      let s1 :=
        if s._origin_set = false then
          { s with ucm := s.ucm.set_origin_from_latlon trig lat lon,
                   _origin_set := true }
        else s
      match s1.ucm.to_local_xy trig lat lon with
      | .error e => .error (.runtimeError e)
      | .ok (x, y) =>
        .ok (some ⟨frame.epoch_id, frame.t_recv_s, x, y, some lat, some lon⟩, s1)

/--
One completed line inside `I2CGNSSParser.poll` (the `b == 0x0A` branch),
with `on_epoch_end` unregistered.  `on_ucm` models the registered callback:
`none` means no callback (results are queued on `_pending_ucm`); `some cb`
means a callback is registered, where `cb u` is the value the callback
returns (`none` modelling Python `None`, per the declared callback type
`Callable[[UCMResult], None]`).

When a callback is registered and a result `u` is produced, the code runs
`ucm_result = self.on_ucm(u)` followed by
`self.last_succesful_ucm(ucm_result.x_m, ucm_result.y_m)`: if the callback
returned `None`, the attribute access `ucm_result.x_m` raises
`AttributeError`; otherwise calling the list `last_succesful_ucm` raises
`TypeError`.

Returns the successor state and the frame closed by rollover, if any.
-/
def stepLine (trig : Trig) (on_ucm : Option (UCMResult → Option UCMResult))
    (s : I2CState) (line : Str) (t : ℚ) :
    Except PyExc (I2CState × Option EpochFrame) :=
  if is_gga_sentence line then
    let prevPair := s.decoder.end_epoch
    let s1 : I2CState := { s with decoder := prevPair.1 }
    let afterUcm : Except PyExc I2CState :=
      match prevPair.2 with
      | none => .ok s1
      | some prev =>
        match _frame_to_ucm trig s1 prev with
        | .error e => .error e
        | .ok (u, s2) =>
          match u with
          | none => .ok s2
          | some u' =>
            match on_ucm with
            | none => .ok { s2 with _pending_ucm := s2._pending_ucm ++ [u'] }
            | some cb =>
              match cb u' with
              | none => .error .attributeError
              | some _ => .error .typeError
    match afterUcm with
    | .error e => .error e
    | .ok s3 =>
      let s4 : I2CState := { s3 with decoder := s3.decoder.begin_epoch none t }
      .ok ({ s4 with decoder := (s4.decoder.feed_line line t).1 }, prevPair.2)
  else
    .ok ({ s with decoder := (s.decoder.feed_line line t).1 }, none)

/-- Process a list of completed lines, collecting the closed epoch frames
in order. -/
def runLines (trig : Trig) (on_ucm : Option (UCMResult → Option UCMResult)) :
    I2CState → List Str → ℚ → Except PyExc (I2CState × List EpochFrame)
  | s, [], _ => .ok (s, [])
  | s, l :: ls, t =>
    match stepLine trig on_ucm s l t with
    | .error e => .error e
    | .ok (s', closed) =>
      match runLines trig on_ucm s' ls t with
      | .error e => .error e
      | .ok (s'', rest) => .ok (s'', closed.toList ++ rest)

/-- The ids of all epochs opened during a run from the freshly initialized
parser, in opening order: the initial epoch, then the closed frames (epochs
are closed in the order they were opened), ending with the frame still open
at the end of the run. -/
def openedEpochIds (trig : Trig) (lines : List Str) (t0 t : ℚ) :
    Except PyExc (List ℤ) :=
  match runLines trig none (initI2C t0) lines t with
  | .error e => .error e
  | .ok (s, closed) =>
    .ok (closed.map EpochFrame.epoch_id ++
         (s.decoder._current.map EpochFrame.epoch_id).toList)

/-- A concrete instantiation of the trig oracle, used only to instantiate
universally quantified theorems at concrete inputs. -/
def demoTrig : Trig := ⟨fun _ => 0, fun _ => 1, fun _ => 0, fun _ => 1⟩

/-- Interface well-formedness tying the parser's one-shot flag to the
converter: whenever `_origin_set` is raised, an origin really is stored.
It holds at `initI2C` and is preserved by `stepLine`. -/
def OriginWF (s : I2CState) : Prop :=
  s._origin_set = true → s.ucm._origin_utm ≠ none

/-! ## Reference data and auxiliary definitions for the theorems -/

/-- The spec's reference GGA sentence (declared checksum `47`). -/
def refLineGGA : Str :=
  "$GNGGA,123519,4807.038,N,01131.000,E,1,08,0.9,545.4,M,46.9,M,,*47".data

/-- Body of the reference sentence (between `$` and `*`). -/
def refBodyGGA : Str :=
  "GNGGA,123519,4807.038,N,01131.000,E,1,08,0.9,545.4,M,46.9,M,,".data

/-- The reference sentence as delivered by the line framer (terminated). -/
def refLineNL : Str :=
  "$GNGGA,123519,4807.038,N,01131.000,E,1,08,0.9,545.4,M,46.9,M,,*47\n".data

/-- The 14 data fields of the reference sentence. -/
def refFieldsGGA : List Str :=
  ["123519".data, "4807.038".data, "N".data, "01131.000".data, "E".data,
   "1".data, "08".data, "0.9".data, "545.4".data, "M".data, "46.9".data,
   "M".data, [], []]

/-- The record the decoder produces for the reference sentence when checksum
verification is off (`checksum_ok = none`, exact rational field values). -/
def refGGARecord : NMEAMessage :=
  .gga ⟨"GN".data, "GGA".data, refLineGGA, refFieldsGGA, none⟩
    { utc_time := some "123519".data
      lat_deg := some (481173 / 10000 : ℚ)
      lon_deg := some (691 / 60 : ℚ)
      fix_quality := some 1
      num_sats := some 8
      hdop := some (9 / 10 : ℚ)
      altitude_m := some (2727 / 5 : ℚ)
      geoid_sep_m := some (469 / 10 : ℚ) }

/-- Contents of the epoch frame opened by a rollover on `line`: the single
record decoded from the triggering line, or nothing if it does not decode. -/
def msgsFor (verify : Bool) (line : Str) : List (Str × List NMEAMessage) :=
  match _parse_line verify (pyStrip line) with
  | some m => [(m.msg_type, [m])]
  | none => []

/-- Model of `[a, a+1, ..., a+n-1]` over `ℤ`. -/
def idRange (a : ℤ) : ℕ → List ℤ
  | 0 => []
  | n + 1 => a :: idRange (a + 1) n

/-- Sign applied to a decoded coordinate by a one-letter hemisphere field. -/
def hemiSign (c : Char) : ℚ :=
  if c = 'S' ∨ c = 's' ∨ c = 'W' ∨ c = 'w' then -1 else 1

/-! ## Helper lemmas -/

/-- Every branch of the registry dispatch stores the checksum outcome it was
given, unchanged, in the record's base fields. -/
theorem dispatchParse_checksum_ok (pt tk mt raw : Str) (fl : List Str)
    (ck : Option Bool) :
    (dispatchParse pt tk mt raw fl ck).base.checksum_ok = ck := by
  unfold dispatchParse
  repeat' split
  all_goals
    simp [parse_gga, parse_gsa, parse_rmc, parse_vtg, parse_gll, parse_txt,
      NMEAMessage.base]

/-! ## Claim theorems -/

/--
**C1** (corrected), counterexample: with checksum verification **enabled**,
feeding the spec's reference line
`$GNGGA,123519,4807.038,N,01131.000,E,1,08,0.9,545.4,M,46.9,M,,*47`
to the decoder yields **no record at all**: the declared checksum `0x47`
(copied from the classic `$GPGGA` example) does not match the XOR `0x59` of
this `GN`-talker body, so `_parse_line` drops the line.  The claim as
stated is therefore false.
-/
theorem C1_counterexample_checksum_on_drops :
    _parse_line true refLineGGA = none ∧
    nmea_checksum_xor refBodyGGA = 89 ∧ hexStrVal "47".data = 71 := by
  refine ⟨?_, ?_, ?_⟩ <;> with_unfolding_all rfl

/--
**C1** (corrected), amended claim: with checksum verification **disabled**
(the configuration the module's own example and the I2C parser use), the
reference line decodes to a GGA FixData record with latitude
`481173/10000 = 48.1173 ≈ 48.11730`, longitude `691/60 ≈ 11.51667`,
fix-quality 1, satellite count 8, horizontal dilution `9/10 = 0.9`, and
altitude `2727/5 = 545.4`; its checksum-verification outcome is left
undetermined (`none`).
-/
theorem C1_amended_reference_line_decodes :
    _parse_line false refLineGGA = some refGGARecord := by
  with_unfolding_all rfl

/--
**C3** (confirmed): with checksum verification enabled, every line that
matches the sentence grammar and carries a declared two-hex-digit checksum
different from the XOR of the body bytes is dropped entirely: the decoder
emits no record of any kind.
-/
theorem C3_checksum_mismatch_yields_no_record
    (line body cs : Str)
    (hmatch : nmeaMatch line = some (body, some cs))
    (hne : hexStrVal cs ≠ nmea_checksum_xor body) :
    _parse_line true line = none := by
  unfold _parse_line
  rw [hmatch]
  simp only [decide_eq_false hne, reduceIte]

/-- Witness for C3 at a concrete input: the reference body with the wrong
declared checksum `46`. -/
theorem C3_witness :
    _parse_line true
      "$GNGGA,123519,4807.038,N,01131.000,E,1,08,0.9,545.4,M,46.9,M,,*46".data
      = none :=
  C3_checksum_mismatch_yields_no_record _ refBodyGGA "46".data
    (by with_unfolding_all rfl) (by with_unfolding_all decide)

/--
**C10** (confirmed): with checksum verification disabled — the I2C parser's
default decoder configuration — every grammar-matching line whose header is
at least 5 characters decodes to a record even if its declared checksum does
not match the body XOR, and the record's checksum-verification outcome is
left undetermined (`none`), never `true` or `false`.
-/
theorem C10_no_verify_decodes_with_undetermined_checksum :
    (∀ (line body : Str) (cs_hex : Option Str) (header : Str) (fields : List Str),
      nmeaMatch line = some (body, cs_hex) →
      splitOnC ',' body = header :: fields →
      ¬ header.length < 5 →
      ∃ m, _parse_line false line = some m ∧ m.base.checksum_ok = none)
    ∧ ∀ t0 : ℚ, (initI2C t0).decoder.verify_checksum = false := by
  constructor
  · intro line body cs_hex header fields hmatch hsplit hlen
    have hck : (match cs_hex, false with
        | some cs, true => some (decide (hexStrVal cs = nmea_checksum_xor body))
        | _, _ => (none : Option Bool)) = none := by
      cases cs_hex <;> rfl
    unfold _parse_line
    rw [hmatch]
    dsimp only
    rw [hck, hsplit]
    simp only [reduceCtorEq, reduceIte, if_neg hlen]
    exact ⟨_, rfl, dispatchParse_checksum_ok _ _ _ _ _ _⟩
  · intro t0; rfl

/-- Witness for C10 at the reference line (whose declared checksum is in
fact wrong): a record is produced and its `checksum_ok` is `none`. -/
theorem C10_witness :
    ∃ m, _parse_line false refLineGGA = some m ∧ m.base.checksum_ok = none :=
  C10_no_verify_decodes_with_undetermined_checksum.1 refLineGGA refBodyGGA
    (some "47".data) "GNGGA".data refFieldsGGA
    (by with_unfolding_all rfl) (by with_unfolding_all rfl)
    (by with_unfolding_all decide)

/--
**C7** (confirmed): for every latitude/longitude pair and every trig oracle,
evaluating `to_local_xy` at the exact point previously passed to
`set_origin_from_latlon` returns exactly `(0, 0)`: the current point is
projected in the origin's zone with the very same inputs, so the difference
cancels identically — in particular it is within the claimed 1e-6 m
tolerance.
-/
theorem C7_to_local_at_origin_is_zero (trig : Trig) (c : UCMConverter)
    (lat lon : ℚ) :
    (c.set_origin_from_latlon trig lat lon).to_local_xy trig lat lon
      = .ok (0, 0) := by
  unfold UCMConverter.set_origin_from_latlon UCMConverter.to_local_xy
  have hz : latlon_to_utm trig lat lon
        (some ((latlon_to_utm trig lat lon c.fixed_zone).zone))
      = latlon_to_utm trig lat lon c.fixed_zone := by
    cases c.fixed_zone <;> rfl
  dsimp only
  rw [hz]
  simp [sub_self]

/--
**C6** (confirmed): `to_local_xy` fails with the `RuntimeError`
"Origin not set. Call set_origin_from_latlon() first." exactly when no
origin has been set; when an origin exists it returns the current point's
easting/northing minus the origin's easting/northing, with the current
point projected in the **origin's** zone (`some o.zone`), not in a zone
recomputed from the current longitude.
-/
theorem C6_to_local_xy_contract (trig : Trig) (c : UCMConverter)
    (lat lon : ℚ) :
    (c._origin_utm = none →
      c.to_local_xy trig lat lon =
        .error "Origin not set. Call set_origin_from_latlon() first.")
    ∧ (∀ o : UTMCoord, c._origin_utm = some o →
        c.to_local_xy trig lat lon =
          .ok ((latlon_to_utm trig lat lon (some o.zone)).easting_m - o.easting_m,
               (latlon_to_utm trig lat lon (some o.zone)).northing_m - o.northing_m))
    ∧ ((∃ e, c.to_local_xy trig lat lon = .error e) ↔ c._origin_utm = none) := by
  refine ⟨?_, ?_, ?_⟩
  · intro h
    unfold UCMConverter.to_local_xy
    rw [h]
  · intro o h
    unfold UCMConverter.to_local_xy
    rw [h]
  · cases h : c._origin_utm with
    | none => simp [UCMConverter.to_local_xy, h]
    | some o => simp [UCMConverter.to_local_xy, h]

/-- Witness for C6: a converter with a concrete stored origin returns the
origin-zone projection difference, and a converter without an origin fails
with the "origin not set" error. -/
theorem C6_witness :
    ((⟨some 52, some ⟨1, 2, 52, ['N']⟩⟩ : UCMConverter).to_local_xy demoTrig 3 4
      = .ok ((latlon_to_utm demoTrig 3 4 (some 52)).easting_m - 1,
             (latlon_to_utm demoTrig 3 4 (some 52)).northing_m - 2))
    ∧ ((⟨some 52, none⟩ : UCMConverter).to_local_xy demoTrig 3 4
      = .error "Origin not set. Call set_origin_from_latlon() first.") :=
  ⟨(C6_to_local_xy_contract demoTrig ⟨some 52, some ⟨1, 2, 52, ['N']⟩⟩ 3 4).2.1
      ⟨1, 2, 52, ['N']⟩ rfl,
   (C6_to_local_xy_contract demoTrig ⟨some 52, none⟩ 3 4).1 rfl⟩

/--
**C5** (corrected), counterexample: `set_origin_from_latlon` is **not** a
silent no-op after the first call — a second call overwrites the stored
origin.  Concretely, setting the origin at latitude 10 and then calling
`set_origin_from_latlon` again at latitude −10 changes the stored origin
(its hemisphere flips from `N` to `S`).
-/
theorem C5_counterexample_set_origin_overwrites :
    ¬ ((((⟨some 52, none⟩ : UCMConverter).set_origin_from_latlon demoTrig 10 20
          ).set_origin_from_latlon demoTrig (-10) 20)._origin_utm
        = ((⟨some 52, none⟩ : UCMConverter).set_origin_from_latlon
            demoTrig 10 20)._origin_utm) := by
  intro h
  have h1 : (((⟨some 52, none⟩ : UCMConverter).set_origin_from_latlon demoTrig 10 20
        ).set_origin_from_latlon demoTrig (-10) 20)._origin_utm
      = some (latlon_to_utm demoTrig (-10) 20 (some 52)) := rfl
  have h2 : ((⟨some 52, none⟩ : UCMConverter).set_origin_from_latlon
        demoTrig 10 20)._origin_utm
      = some (latlon_to_utm demoTrig 10 20 (some 52)) := rfl
  rw [h1, h2] at h
  have h3 := congrArg UTMCoord.hemisphere (Option.some.inj h)
  have h4 : (latlon_to_utm demoTrig (-10) 20 (some 52)).hemisphere = ['S'] := by
    with_unfolding_all rfl
  have h5 : (latlon_to_utm demoTrig 10 20 (some 52)).hemisphere = ['N'] := by
    with_unfolding_all rfl
  rw [h4, h5] at h3
  exact absurd h3 (by simp)

/--
**C5** (corrected), amended claim: the converter itself overwrites the
origin on every `set_origin_from_latlon` call (the second call stores the
second point's projection, regardless of the first); the at-most-once
behavior holds one level up: the I2C parser's `_frame_to_ucm` guards the
call with its `_origin_set` flag, so once the flag is raised the converter
state (and hence the origin and the local frame) is never modified again by
frame processing.
-/
theorem C5_amended_origin_set_at_most_once (trig : Trig) :
    (∀ (c : UCMConverter) (lat1 lon1 lat2 lon2 : ℚ),
      ((c.set_origin_from_latlon trig lat1 lon1).set_origin_from_latlon
          trig lat2 lon2)._origin_utm
        = some (latlon_to_utm trig lat2 lon2 c.fixed_zone))
    ∧ (∀ (s : I2CState) (f : EpochFrame) (u : Option UCMResult) (s' : I2CState),
        s._origin_set = true →
        _frame_to_ucm trig s f = .ok (u, s') →
        s'.ucm = s.ucm ∧ s'._origin_set = true) := by
  constructor
  · intro c lat1 lon1 lat2 lon2
    rfl
  · intro s f u s' hset hstep
    unfold _frame_to_ucm at hstep
    split at hstep
    · cases hstep
      exact ⟨rfl, hset⟩
    · split at hstep
      · cases hstep
        exact ⟨rfl, hset⟩
      · rw [hset] at hstep
        simp only [Bool.true_eq_false, if_false, reduceIte] at hstep
        split at hstep
        · cases hstep
        · cases hstep
          exact ⟨rfl, hset⟩

/-- Witness for C5's amended claim: the overwrite fact at concrete points,
and guard preservation on a concrete state whose `_origin_set` flag is
already raised (processing a frame leaves its converter untouched). -/
theorem C5_witness :
    ((((⟨some 52, none⟩ : UCMConverter).set_origin_from_latlon demoTrig 1 2
        ).set_origin_from_latlon demoTrig 3 4)._origin_utm
      = some (latlon_to_utm demoTrig 3 4 (some 52)))
    ∧ ((⟨⟨false, 0, none⟩, ⟨some 52, some ⟨1, 2, 52, ['N']⟩⟩, true, []⟩ :
          I2CState).ucm
        = (⟨⟨false, 0, none⟩, ⟨some 52, some ⟨1, 2, 52, ['N']⟩⟩, true, []⟩ :
          I2CState).ucm
      ∧ (⟨⟨false, 0, none⟩, ⟨some 52, some ⟨1, 2, 52, ['N']⟩⟩, true, []⟩ :
          I2CState)._origin_set = true) :=
  ⟨(C5_amended_origin_set_at_most_once demoTrig).1 ⟨some 52, none⟩ 1 2 3 4,
   (C5_amended_origin_set_at_most_once demoTrig).2
     ⟨⟨false, 0, none⟩, ⟨some 52, some ⟨1, 2, 52, ['N']⟩⟩, true, []⟩
     ⟨1, 0, []⟩ none _ rfl (by with_unfolding_all rfl)⟩

set_option maxRecDepth 8000

/--
**C8** (code_bug): the fix-notification callback is **not** one-way in the
code.  When a UCM result is produced for a closed epoch and a callback is
registered, `poll` runs `ucm_result = self.on_ucm(u)` and then
`self.last_succesful_ucm(ucm_result.x_m, ucm_result.y_m)`: if the callback
returns `None` (as its declared type `Callable[[UCMResult], None]` says),
the attribute access raises `AttributeError`; for any other return value,
calling the list `last_succesful_ucm` raises `TypeError`.  Concretely,
feeding two copies of the reference GGA line to a freshly initialized
parser with a registered callback makes the second rollover raise,
whatever the callback returns — contradicting the claim that `poll`
completes normally.
-/
theorem C8_callback_return_consumed_poll_raises :
    (runLines demoTrig (some (fun _ => none)) (initI2C 0)
        [refLineNL, refLineNL] 0 = .error .attributeError)
    ∧ ∀ r : UCMResult,
        runLines demoTrig (some (fun _ => some r)) (initI2C 0)
          [refLineNL, refLineNL] 0 = .error .typeError := by
  constructor
  · with_unfolding_all rfl
  · intro r
    with_unfolding_all rfl

/-! ## Helper lemmas for the epoch state machine -/

/-- A GGA-triggering line starts, after stripping, with the `$` marker. -/
theorem gga_strip_head (l : Str) (h : is_gga_sentence l = true) :
    (pyStrip l).head? = some '$' := by
  cases hs : pyStrip l with
  | nil =>
    have hfalse : is_gga_sentence l = false := by
      unfold is_gga_sentence
      rw [hs]
    rw [hfalse] at h
    cases h
  | cons c rest =>
    by_cases hc : c = '$'
    · rw [hc]
      rfl
    · have hfalse : is_gga_sentence l = false := by
        unfold is_gga_sentence
        rw [hs]
        dsimp only
        rw [if_neg hc]
      rw [hfalse] at h
      cases h

/-- Model of `feed_line` on a decoder with an open frame: the decoder is unchanged
except that the open frame may gain the decoded record; in particular the
frame's epoch id, the counter, and the verification flag are preserved. -/
theorem feed_line_current_some (d : NMEADecoder) (l : Str) (t : ℚ)
    (f : EpochFrame) (hc : d._current = some f) :
    ∃ f2, (d.feed_line l t).1 = { d with _current := some f2 }
      ∧ f2.epoch_id = f.epoch_id := by
  unfold NMEADecoder.feed_line
  dsimp only
  split
  · refine ⟨f, ?_, rfl⟩
    rw [← hc]
  · cases hp : _parse_line d.verify_checksum (pyStrip l) with
    | none =>
      refine ⟨f, ?_, rfl⟩
      rw [← hc]
    | some m =>
      have hnn : ¬ d._current = none := by rw [hc]; simp
      rw [if_neg hnn]
      rw [hc]
      exact ⟨f.add m, rfl, rfl⟩

/-- Model of `feed_line` on a decoder whose open frame is empty and a line that
starts (after stripping) with `$`: the frame's contents become exactly
`msgsFor` of the line. -/
theorem feed_line_on_empty_frame (d : NMEADecoder) (l : Str) (t : ℚ)
    (i : ℤ) (t0 : ℚ) (hc : d._current = some ⟨i, t0, []⟩)
    (hd : (pyStrip l).head? = some '$') :
    (d.feed_line l t).1
      = { d with _current := some ⟨i, t0, msgsFor d.verify_checksum l⟩ } := by
  unfold NMEADecoder.feed_line msgsFor
  dsimp only
  have hne : ¬ (pyStrip l = [] ∨ (pyStrip l).head? ≠ some '$') := by
    intro hcon
    rcases hcon with hnil | hhd
    · rw [hnil] at hd
      cases hd
    · exact hhd hd
  rw [if_neg hne]
  cases hp : _parse_line d.verify_checksum (pyStrip l) with
  | none =>
    rw [← hc]
  | some m =>
    have hnn : ¬ d._current = none := by rw [hc]; simp
    rw [if_neg hnn]
    rw [hc]
    rfl

/-- Model of `_frame_to_ucm` succeeds on origin-well-formed states, leaves the
decoder untouched, and preserves well-formedness. -/
theorem frame_to_ucm_ok (trig : Trig) (s : I2CState) (f : EpochFrame)
    (hWF : OriginWF s) :
    ∃ u s2, _frame_to_ucm trig s f = .ok (u, s2)
      ∧ s2.decoder = s.decoder ∧ OriginWF s2 := by
  unfold _frame_to_ucm
  cases hg : f.GGA with
  | nil => exact ⟨none, s, rfl, rfl, hWF⟩
  | cons g rest =>
    dsimp only
    cases he : extract_latlon_from_nmea_message g with
    | none => exact ⟨none, s, rfl, rfl, hWF⟩
    | some p =>
      obtain ⟨lat, lon⟩ := p
      dsimp only
      by_cases hset : s._origin_set = false
      · rw [if_pos hset]
        unfold UCMConverter.set_origin_from_latlon UCMConverter.to_local_xy
        dsimp only
        refine ⟨_, _, rfl, rfl, ?_⟩
        intro _
        simp
      · rw [if_neg hset]
        have hset2 : s._origin_set = true := by
          revert hset; cases s._origin_set <;> simp
        obtain ⟨o, ho⟩ : ∃ o, s.ucm._origin_utm = some o := by
          cases hou : s.ucm._origin_utm with
          | none => exact absurd hou (hWF hset2)
          | some o => exact ⟨o, rfl⟩
        unfold UCMConverter.to_local_xy
        rw [ho]
        exact ⟨_, _, rfl, rfl, hWF⟩

/-- A non-GGA line never triggers a rollover: `stepLine` only feeds the
decoder and closes nothing, whatever the callback configuration. -/
theorem stepLine_not_gga (trig : Trig)
    (cb : Option (UCMResult → Option UCMResult)) (s : I2CState) (line : Str)
    (t : ℚ) (h : is_gga_sentence line = false) :
    stepLine trig cb s line t
      = .ok ({ s with decoder := (s.decoder.feed_line line t).1 }, none) := by
  unfold stepLine
  rw [h]
  rfl

/-- A GGA line (no callback configured): `stepLine` closes exactly the
previously open frame, unchanged, and opens a fresh epoch with the next
counter id whose only contents are the record decoded from the triggering
line. -/
theorem stepLine_gga (trig : Trig) (s : I2CState) (line : Str) (t : ℚ)
    (hWF : OriginWF s) (hgga : is_gga_sentence line = true) :
    ∃ s2, stepLine trig none s line t = .ok (s2, s.decoder._current)
      ∧ s2.decoder = { verify_checksum := s.decoder.verify_checksum,
                       _epoch_counter := s.decoder._epoch_counter + 1,
                       _current := some ⟨s.decoder._epoch_counter + 1, t,
                         msgsFor s.decoder.verify_checksum line⟩ }
      ∧ OriginWF s2 := by
  have hd : (pyStrip line).head? = some '$' := gga_strip_head line hgga
  have hfeed := feed_line_on_empty_frame
    (⟨s.decoder.verify_checksum, s.decoder._epoch_counter + 1,
      some ⟨s.decoder._epoch_counter + 1, t, []⟩⟩ : NMEADecoder) line t
    (s.decoder._epoch_counter + 1) t rfl hd
  unfold stepLine
  rw [hgga]
  dsimp only [NMEADecoder.end_epoch, reduceIte]
  cases hc : s.decoder._current with
  | none =>
    dsimp only
    have hbegin : ({ s.decoder with _current := none } : NMEADecoder).begin_epoch none t
        = ⟨s.decoder.verify_checksum, s.decoder._epoch_counter + 1,
           some ⟨s.decoder._epoch_counter + 1, t, []⟩⟩ := rfl
    rw [hbegin, hfeed]
    exact ⟨_, rfl, rfl, hWF⟩
  | some prev =>
    dsimp only
    have hWF1 : OriginWF ({ s with decoder := { s.decoder with _current := none } } : I2CState) := hWF
    obtain ⟨u, s2, hft, hdec, hWF2⟩ :=
      frame_to_ucm_ok trig { s with decoder := { s.decoder with _current := none } } prev hWF1
    have hbegin : s2.decoder.begin_epoch none t
        = ⟨s.decoder.verify_checksum, s.decoder._epoch_counter + 1,
           some ⟨s.decoder._epoch_counter + 1, t, []⟩⟩ := by
      rw [hdec]
      rfl
    rw [hft]
    cases u with
    | none =>
      dsimp only
      rw [hbegin, hfeed]
      exact ⟨_, rfl, rfl, hWF2⟩
    | some u1 =>
      dsimp only
      rw [hbegin, hfeed]
      exact ⟨_, rfl, rfl, hWF2⟩

/-- Run-level invariant: from any origin-well-formed state with an open
frame, processing a line list (no callback) succeeds, ends with an open
frame, and the ids of the epochs opened along the way — the closed frames
in closing order followed by the finally open frame — are the starting
frame's id followed by consecutive counter values, one per GGA line. -/
theorem runLines_spec (trig : Trig) (lines : List Str) :
    ∀ (s : I2CState) (t : ℚ) (f : EpochFrame),
      OriginWF s → s.decoder._current = some f →
      ∃ s2 closed f2,
        runLines trig none s lines t = .ok (s2, closed)
        ∧ s2.decoder._current = some f2
        ∧ OriginWF s2
        ∧ closed.map EpochFrame.epoch_id ++ [f2.epoch_id]
            = f.epoch_id ::
              idRange (s.decoder._epoch_counter + 1)
                (lines.countP (fun l => is_gga_sentence l)) := by
  induction lines with
  | nil =>
    intro s t f hWF hcur
    exact ⟨s, [], f, rfl, hcur, hWF, by simp [idRange]⟩
  | cons l ls ih =>
    intro s t f hWF hcur
    by_cases hg : is_gga_sentence l = true
    · obtain ⟨s1, hstep, hdec1, hWF1⟩ := stepLine_gga trig s l t hWF hg
      have hc1 : s1.decoder._current
          = some ⟨s.decoder._epoch_counter + 1, t,
                  msgsFor s.decoder.verify_checksum l⟩ := by
        rw [hdec1]
      obtain ⟨s2, closed2, f2, hrun, hc2, hWF2, hids2⟩ := ih s1 t _ hWF1 hc1
      refine ⟨s2, f :: closed2, f2, ?_, hc2, hWF2, ?_⟩
      · unfold runLines
        rw [hstep, hcur]
        dsimp only
        rw [hrun]
        rfl
      · have hcnt : (l :: ls).countP (fun x => is_gga_sentence x)
            = ls.countP (fun x => is_gga_sentence x) + 1 := by
          simp [List.countP_cons, hg]
        rw [hcnt]
        have hctr : s1.decoder._epoch_counter = s.decoder._epoch_counter + 1 := by
          rw [hdec1]
        rw [hctr] at hids2
        simp only [List.map_cons, List.cons_append, hids2, idRange]
    · have hg2 : is_gga_sentence l = false := by
        revert hg; cases is_gga_sentence l <;> simp
      obtain ⟨f1, hfeed, hid⟩ := feed_line_current_some s.decoder l t f hcur
      have hstep := stepLine_not_gga trig none s l t hg2
      have hc1 : ({ s with decoder := (s.decoder.feed_line l t).1 } : I2CState).decoder._current
          = some f1 := by
        rw [hfeed]
      have hWF1 : OriginWF ({ s with decoder := (s.decoder.feed_line l t).1 } : I2CState) := hWF
      obtain ⟨s2, closed2, f2, hrun, hc2, hWF2, hids2⟩ :=
        ih { s with decoder := (s.decoder.feed_line l t).1 } t f1 hWF1 hc1
      refine ⟨s2, closed2, f2, ?_, hc2, hWF2, ?_⟩
      · unfold runLines
        rw [hstep]
        dsimp only
        rw [hrun]
        rfl
      · have hcnt : (l :: ls).countP (fun x => is_gga_sentence x)
            = ls.countP (fun x => is_gga_sentence x) := by
          simp [List.countP_cons, hg2]
        have hctr : ({ s with decoder := (s.decoder.feed_line l t).1 } : I2CState).decoder._epoch_counter
            = s.decoder._epoch_counter := by
          rw [hfeed]
        rw [hcnt]
        rw [hctr] at hids2
        rw [hids2, hid]

/--
**C2** (confirmed): epoch rollover happens exactly on GGA-kind lines.  For a
non-GGA line `stepLine` closes nothing and only feeds the open epoch; for a
GGA line it first closes the current epoch **unchanged** (the closed frame
is exactly the frame that was open before the line was processed, so the
triggering record is not in it — even an empty frame is closed), then opens
a fresh epoch with the next counter id, and the fresh epoch's contents are
exactly the record decoded from the triggering line (`msgsFor`).
-/
theorem C2_rollover_exactly_on_gga (trig : Trig) (s : I2CState) (line : Str)
    (t : ℚ) (hWF : OriginWF s) :
    (is_gga_sentence line = false →
      stepLine trig none s line t
        = .ok ({ s with decoder := (s.decoder.feed_line line t).1 }, none))
    ∧ (is_gga_sentence line = true →
      ∃ s2, stepLine trig none s line t = .ok (s2, s.decoder._current)
        ∧ s2.decoder._current
            = some ⟨s.decoder._epoch_counter + 1, t,
                    msgsFor s.decoder.verify_checksum line⟩) := by
  constructor
  · intro h
    exact stepLine_not_gga trig none s line t h
  · intro h
    obtain ⟨s2, hstep, hdec, _⟩ := stepLine_gga trig s line t hWF h
    refine ⟨s2, hstep, ?_⟩
    rw [hdec]

/-- Witness for C2: one rollover step on the freshly initialized parser and
the reference GGA line closes the initial (empty) epoch unchanged and opens
epoch 1 containing exactly the decoded reference record. -/
theorem C2_witness :
    ∃ s2, stepLine demoTrig none (initI2C 0) refLineNL 0
        = .ok (s2, (initI2C 0).decoder._current)
      ∧ s2.decoder._current
          = some ⟨(initI2C 0).decoder._epoch_counter + 1, 0,
                  msgsFor (initI2C 0).decoder.verify_checksum refLineNL⟩ :=
  (C2_rollover_exactly_on_gga demoTrig (initI2C 0) refLineNL 0
    (by intro h; cases h)).2 (by with_unfolding_all rfl)

/--
**C9** (corrected), counterexample: epoch ids are **not** strictly
increasing over a run of the system.  The parser's constructor opens the
initial epoch with explicit id 1 without touching the auto-increment
counter (still 0), so the first rollover opens an epoch with id 0+1 = 1
again: after one GGA line the opened-epoch ids are `[1, 1]`.
-/
theorem C9_counterexample_duplicate_epoch_id :
    openedEpochIds demoTrig [refLineNL] 0 0 = .ok [1, 1]
    ∧ ¬ List.Chain' (fun a b : ℤ => a < b) [1, 1] := by
  constructor
  · with_unfolding_all rfl
  · intro h
    exact absurd (List.chain'_cons.mp h).1 (by norm_num)

/--
**C9** (corrected), amended claim: over any run from the freshly
initialized system, the ids of the epochs opened are `1` (the initial
epoch, explicitly numbered) followed by `1, 2, 3, …`, one per GGA line —
nondecreasing, with the initial epoch's id repeated by the first rollover
epoch and strictly increasing from then on.
-/
theorem C9_amended_epoch_ids (trig : Trig) (lines : List Str) (t0 t : ℚ) :
    openedEpochIds trig lines t0 t
      = .ok (1 :: idRange 1 (lines.countP (fun l => is_gga_sentence l))) := by
  have hWF : OriginWF (initI2C t0) := by intro h; cases h
  have hcur : (initI2C t0).decoder._current = some ⟨1, t0, []⟩ := rfl
  obtain ⟨s2, closed, f2, hrun, hc2, _, hids⟩ :=
    runLines_spec trig lines (initI2C t0) t _ hWF hcur
  unfold openedEpochIds
  rw [hrun]
  dsimp only
  rw [hc2]
  have : (initI2C t0).decoder._epoch_counter = 0 := rfl
  rw [this] at hids
  simp only [Option.map_some', Option.toList_some]
  rw [hids]
  norm_num

/-! ## Helper lemmas for numeric field parsing (C4) -/

/-- A decimal digit character is not a sign character. -/
theorem digit_not_sign (c : Char) (h : isDigitC c = true) :
    ¬ c = '+' ∧ ¬ c = '-' := by
  constructor <;> rintro rfl <;> exact absurd h (by decide)

/-- Model of `parseUnsignedInt` on a nonempty all-digits string. -/
theorem parseUnsignedInt_digits (s : Str) (hne : s ≠ [])
    (hdig : s.all isDigitC = true) :
    parseUnsignedInt s = some (digitsVal s : ℤ) := by
  unfold parseUnsignedInt
  rw [if_pos ⟨hne, hdig⟩]

/-- Model of `pyInt` on a nonempty all-digits string. -/
theorem pyInt_digits (s : Str) (hne : s ≠ []) (hdig : s.all isDigitC = true) :
    pyInt s = some (digitsVal s : ℤ) := by
  cases s with
  | nil => exact absurd rfl hne
  | cons c cs =>
    have hc : isDigitC c = true := by
      rw [List.all_cons, Bool.and_eq_true] at hdig
      exact hdig.1
    obtain ⟨hp, hm⟩ := digit_not_sign c hc
    unfold pyInt
    dsimp only
    rw [if_neg hp, if_neg hm]
    exact parseUnsignedInt_digits _ hne hdig

/-- Model of `takeWhile`/`dropWhile` split a digits-then-dot string at the dot. -/
theorem takeWhile_digits_dot (mi mf : Str) (hmi : mi.all isDigitC = true) :
    (mi ++ '.' :: mf).takeWhile isDigitC = mi
    ∧ (mi ++ '.' :: mf).dropWhile isDigitC = '.' :: mf := by
  induction mi with
  | nil =>
    constructor <;> simp [List.takeWhile_cons, List.dropWhile_cons, isDigitC]
  | cons c cs ih =>
    rw [List.all_cons, Bool.and_eq_true] at hmi
    obtain ⟨hc, hcs⟩ := hmi
    obtain ⟨iht, ihd⟩ := ih hcs
    constructor
    · simp [List.takeWhile_cons, hc, iht]
    · simp [List.dropWhile_cons, hc, ihd]

/-- Model of `parseUnsignedFloat` on a string of the shape `digits.digits`. -/
theorem parseUnsignedFloat_digits (mi mf : Str)
    (hmi : mi.all isDigitC = true) (hmf : mf.all isDigitC = true)
    (hne : mi ≠ [] ∨ mf ≠ []) :
    parseUnsignedFloat (mi ++ '.' :: mf)
      = some ((digitsVal mi : ℚ) + (digitsVal mf : ℚ) / (10 : ℚ) ^ mf.length) := by
  obtain ⟨ht, hd⟩ := takeWhile_digits_dot mi mf hmi
  unfold parseUnsignedFloat
  rw [ht, hd]
  show (if mf.all isDigitC = true ∧ (mi ≠ [] ∨ mf ≠ []) then
      some ((digitsVal mi : ℚ) + (digitsVal mf : ℚ) / (10 : ℚ) ^ mf.length)
    else none)
    = some ((digitsVal mi : ℚ) + (digitsVal mf : ℚ) / (10 : ℚ) ^ mf.length)
  rw [if_pos ⟨hmf, hne⟩]

/-- Model of `pyFloat` on a string of the shape `digits.digits` with a nonempty
integer part. -/
theorem pyFloat_digits (mi mf : Str)
    (hmi : mi.all isDigitC = true) (hmf : mf.all isDigitC = true)
    (hne : mi ≠ []) :
    pyFloat (mi ++ '.' :: mf)
      = some ((digitsVal mi : ℚ) + (digitsVal mf : ℚ) / (10 : ℚ) ^ mf.length) := by
  cases mi with
  | nil => exact absurd rfl hne
  | cons c cs =>
    have hc : isDigitC c = true := by
      rw [List.all_cons, Bool.and_eq_true] at hmi
      exact hmi.1
    obtain ⟨hp, hm⟩ := digit_not_sign c hc
    rw [List.cons_append]
    unfold pyFloat
    dsimp only
    rw [if_neg hp, if_neg hm]
    rw [← List.cons_append]
    exact parseUnsignedFloat_digits _ mf hmi hmf (Or.inl hne)

/-- Core evaluation of `parse_lat_lon` on a well-formed
`degrees-digits ++ minutes-digits ++ . ++ fraction-digits` value paired
with a nonempty hemisphere string whose degree-digit count matches. -/
theorem parse_lat_lon_valid (dd mi mf h : Str)
    (hdd : dd.all isDigitC = true) (hmi : mi.all isDigitC = true)
    (hmf : mf.all isDigitC = true) (hddne : dd ≠ []) (hmine : mi ≠ [])
    (hlen : dd.length = if pyUpper h = ['N'] ∨ pyUpper h = ['S'] then 2 else 3)
    (hh : h ≠ []) :
    parse_lat_lon (dd ++ mi ++ '.' :: mf) h
      = some (if pyUpper h = ['S'] ∨ pyUpper h = ['W']
          then -((digitsVal dd : ℚ)
            + ((digitsVal mi : ℚ) + (digitsVal mf : ℚ) / (10 : ℚ) ^ mf.length) / 60)
          else ((digitsVal dd : ℚ)
            + ((digitsVal mi : ℚ) + (digitsVal mf : ℚ) / (10 : ℚ) ^ mf.length) / 60)) := by
  have hv : dd ++ mi ++ '.' :: mf ≠ [] := by
    simp [hddne]
  have hdot : '.' ∈ dd ++ mi ++ '.' :: mf := by simp
  have hcont : (dd ++ mi ++ '.' :: mf).contains '.' = true := by
    exact List.elem_eq_true_of_mem hdot
  unfold parse_lat_lon
  rw [if_neg (by simp [hv, hh])]
  rw [hcont]
  rw [if_neg (by simp)]
  dsimp only
  have htake : (dd ++ mi ++ '.' :: mf).take
      (if pyUpper h = ['N'] ∨ pyUpper h = ['S'] then 2 else 3) = dd := by
    rw [← hlen, List.append_assoc, List.take_left]
  have hdrop : (dd ++ mi ++ '.' :: mf).drop
      (if pyUpper h = ['N'] ∨ pyUpper h = ['S'] then 2 else 3) = mi ++ '.' :: mf := by
    rw [← hlen, List.append_assoc, List.drop_left]
  rw [htake, hdrop, pyInt_digits dd hddne hdd, pyFloat_digits mi mf hmi hmf hmine]
  dsimp only
  norm_cast

/--
**C4** (confirmed): for every valid latitude/longitude field of the form
`ddmm.mmmm` (two degree digits with hemisphere letters N/S/n/s, three with
E/W/e/w), the decoded value is exactly
`degrees + (minutes-integer + fraction)/60`, negated for S/W hemispheres;
and missing values, missing hemispheres, or values without a decimal point
decode to `none`.  (`parse_lat_lon` is a total Lean function, so no input
raises an exception.)
-/
theorem C4_parse_lat_lon_spec :
    (∀ (dd mi mf : Str) (hemi : Char),
      dd.all isDigitC = true → mi.all isDigitC = true → mf.all isDigitC = true →
      mi ≠ [] →
      ((hemi ∈ (['N', 'S', 'n', 's'] : List Char) → dd.length = 2 →
        parse_lat_lon (dd ++ mi ++ '.' :: mf) [hemi]
          = some (hemiSign hemi * ((digitsVal dd : ℚ)
              + ((digitsVal mi : ℚ) + (digitsVal mf : ℚ) / (10 : ℚ) ^ mf.length) / 60)))
      ∧ (hemi ∈ (['E', 'W', 'e', 'w'] : List Char) → dd.length = 3 →
        parse_lat_lon (dd ++ mi ++ '.' :: mf) [hemi]
          = some (hemiSign hemi * ((digitsVal dd : ℚ)
              + ((digitsVal mi : ℚ) + (digitsVal mf : ℚ) / (10 : ℚ) ^ mf.length) / 60)))))
    ∧ (∀ h, parse_lat_lon [] h = none)
    ∧ (∀ v, parse_lat_lon v [] = none)
    ∧ (∀ v h, v.contains '.' = false → parse_lat_lon v h = none) := by
  refine ⟨?_, ?_, ?_, ?_⟩
  · intro dd mi mf hemi hdd hmi hmf hmine
    have hddne2 : dd.length = 2 → dd ≠ [] := by
      intro hl hnil; rw [hnil] at hl; cases hl
    have hddne3 : dd.length = 3 → dd ≠ [] := by
      intro hl hnil; rw [hnil] at hl; cases hl
    constructor
    · intro hmem hlen
      fin_cases hmem
      · rw [parse_lat_lon_valid dd mi mf ['N'] hdd hmi hmf (hddne2 hlen) hmine
              (by rw [hlen]; with_unfolding_all decide)
              (by intro hcon; cases hcon)]
        rw [if_neg (show ¬ (pyUpper ['N'] = ['S'] ∨ pyUpper ['N'] = ['W']) by
          with_unfolding_all decide)]
        rw [show hemiSign 'N' = (1 : ℚ) from by with_unfolding_all rfl, one_mul]
      · rw [parse_lat_lon_valid dd mi mf ['S'] hdd hmi hmf (hddne2 hlen) hmine
              (by rw [hlen]; with_unfolding_all decide)
              (by intro hcon; cases hcon)]
        rw [if_pos (show pyUpper ['S'] = ['S'] ∨ pyUpper ['S'] = ['W'] by
          with_unfolding_all decide)]
        rw [show hemiSign 'S' = (-1 : ℚ) from by with_unfolding_all rfl,
          neg_one_mul]
      · rw [parse_lat_lon_valid dd mi mf ['n'] hdd hmi hmf (hddne2 hlen) hmine
              (by rw [hlen]; with_unfolding_all decide)
              (by intro hcon; cases hcon)]
        rw [if_neg (show ¬ (pyUpper ['n'] = ['S'] ∨ pyUpper ['n'] = ['W']) by
          with_unfolding_all decide)]
        rw [show hemiSign 'n' = (1 : ℚ) from by with_unfolding_all rfl, one_mul]
      · rw [parse_lat_lon_valid dd mi mf ['s'] hdd hmi hmf (hddne2 hlen) hmine
              (by rw [hlen]; with_unfolding_all decide)
              (by intro hcon; cases hcon)]
        rw [if_pos (show pyUpper ['s'] = ['S'] ∨ pyUpper ['s'] = ['W'] by
          with_unfolding_all decide)]
        rw [show hemiSign 's' = (-1 : ℚ) from by with_unfolding_all rfl,
          neg_one_mul]
    · intro hmem hlen
      fin_cases hmem
      · rw [parse_lat_lon_valid dd mi mf ['E'] hdd hmi hmf (hddne3 hlen) hmine
              (by rw [hlen]; with_unfolding_all decide)
              (by intro hcon; cases hcon)]
        rw [if_neg (show ¬ (pyUpper ['E'] = ['S'] ∨ pyUpper ['E'] = ['W']) by
          with_unfolding_all decide)]
        rw [show hemiSign 'E' = (1 : ℚ) from by with_unfolding_all rfl, one_mul]
      · rw [parse_lat_lon_valid dd mi mf ['W'] hdd hmi hmf (hddne3 hlen) hmine
              (by rw [hlen]; with_unfolding_all decide)
              (by intro hcon; cases hcon)]
        rw [if_pos (show pyUpper ['W'] = ['S'] ∨ pyUpper ['W'] = ['W'] by
          with_unfolding_all decide)]
        rw [show hemiSign 'W' = (-1 : ℚ) from by with_unfolding_all rfl,
          neg_one_mul]
      · rw [parse_lat_lon_valid dd mi mf ['e'] hdd hmi hmf (hddne3 hlen) hmine
              (by rw [hlen]; with_unfolding_all decide)
              (by intro hcon; cases hcon)]
        rw [if_neg (show ¬ (pyUpper ['e'] = ['S'] ∨ pyUpper ['e'] = ['W']) by
          with_unfolding_all decide)]
        rw [show hemiSign 'e' = (1 : ℚ) from by with_unfolding_all rfl, one_mul]
      · rw [parse_lat_lon_valid dd mi mf ['w'] hdd hmi hmf (hddne3 hlen) hmine
              (by rw [hlen]; with_unfolding_all decide)
              (by intro hcon; cases hcon)]
        rw [if_pos (show pyUpper ['w'] = ['S'] ∨ pyUpper ['w'] = ['W'] by
          with_unfolding_all decide)]
        rw [show hemiSign 'w' = (-1 : ℚ) from by with_unfolding_all rfl,
          neg_one_mul]
  · intro h
    unfold parse_lat_lon
    rw [if_pos (Or.inl rfl)]
  · intro v
    unfold parse_lat_lon
    rw [if_pos (Or.inr rfl)]
  · intro v h hcont
    unfold parse_lat_lon
    by_cases hvh : v = [] ∨ h = []
    · rw [if_pos hvh]
    · rw [if_neg hvh, hcont]
      rw [if_pos (by simp)]

/-- Witness for C4 at the reference latitude field `4807.038` / `N`:
the generic formula instantiates to the concrete decode, and on the
reference field string it yields exactly `48.1173`. -/
theorem C4_witness :
    (parse_lat_lon ("48".data ++ "07".data ++ '.' :: "038".data) ['N']
      = some (hemiSign 'N' * ((digitsVal "48".data : ℚ)
          + ((digitsVal "07".data : ℚ)
            + (digitsVal "038".data : ℚ) / (10 : ℚ) ^ ("038".data).length) / 60)))
    ∧ parse_lat_lon "4807.038".data "N".data = some (481173 / 10000 : ℚ) :=
  ⟨(C4_parse_lat_lon_spec.1 "48".data "07".data "038".data 'N'
      (by with_unfolding_all decide) (by with_unfolding_all decide)
      (by with_unfolding_all decide) (by with_unfolding_all decide)).1
      (by with_unfolding_all decide) (by with_unfolding_all decide),
   by with_unfolding_all rfl⟩

end ZedF9r
